import Mathlib

/-!
Shallow embedding of the session-scoped retrieval-augmented answering
pipeline of the insurance-policy-assistant repository (src/api.py,
src/enhanced_api.py, src/simple_api.py), with theorems settling the
frozen claims about it.

External collaborators (the Google embedding and answer models, FAISS,
the langchain text splitter, Python's json.loads) are not repository
code; their outcomes enter the embedded operations as explicit
parameters:
* the result of json.loads on the model output is an `Option JsonValue`
  (`none` means the text is not valid JSON, i.e. json.loads raised
  JSONDecodeError);
* the answer-model invocation is an `Except PyExc String`;
* the text splitter is a `String → List String` parameter;
* a persisted FAISS store is modelled by the list of texts it was
  built from (FAISS.from_texts stores one vector per text).

Python exceptions are modelled by `PyExc`; a try/except Exception
block is modelled by matching on an `Except PyExc` value, and numbers
are rationals (exact arithmetic in place of IEEE floats; every
constant the claims mention — 0.5, 0.8 — is exactly representable).
-/

namespace PolicyQA

/-- Values produced by json.loads: JSON null, booleans, numbers,
strings, arrays and objects (an object is its list of key/value
pairs). -/
inductive JsonValue where
  | null
  | bool (b : Bool)
  | num (q : Rat)
  | str (s : String)
  | arr (xs : List JsonValue)
  | obj (fields : List (String × JsonValue))

/-- Whether a JSON value is a string (a Python str). -/
def JsonValue.isStr : JsonValue → Bool
  | .str _ => true
  | _ => false

/-- Key lookup in a parsed JSON object (Python dict keys are unique,
so first match is the match). -/
def getField (o : List (String × JsonValue)) (k : String) : Option JsonValue :=
  match o with
  | [] => none
  | (k1, v) :: rest => if k1 = k then some v else getField rest k

/-- Python dict.get k default. -/
def getD (o : List (String × JsonValue)) (k : String) (d : JsonValue) : JsonValue :=
  (getField o k).getD d

/-- A raised Python exception: a fastapi HTTPException (status code
plus detail) or any other exception, identified by its message. -/
inductive PyExc where
  | http (status : Nat) (detail : String)
  | generic (msg : String)

/-- Python str(e): starlette prints an HTTPException as
"status: detail". -/
def PyExc.str : PyExc → String
  | .http s d => toString s ++ ": " ++ d
  | .generic m => m

/-- Digit run to a natural number (helper for `readDecimal`). -/
def readNatDigits : List Char → Nat → Nat
  | [], acc => acc
  | c :: cs, acc => readNatDigits cs (acc * 10 + (c.toNat - 48))

/-- An unsigned decimal numeral: digits, optionally followed by a
point and more digits; at least one digit overall. -/
def readUnsigned (cs : List Char) : Option Rat :=
  let intp := cs.takeWhile Char.isDigit
  let rest := cs.dropWhile Char.isDigit
  match rest with
  | [] => if intp.isEmpty then none else some (readNatDigits intp 0)
  | c :: frac =>
      if c = Char.ofNat 46 ∧ frac.all Char.isDigit ∧ (intp ≠ [] ∨ frac ≠ []) then
        some ((readNatDigits intp 0 : Rat)
          + (readNatDigits frac 0 : Rat) / ((10 : Rat) ^ frac.length))
      else none

/-- An optionally signed decimal numeral, the common case of Python's
float() on a string (exotic accepted forms such as exponents, inf and
nan are out of scope of the claims). -/
def readDecimal (s : String) : Option Rat :=
  match s.trim.data with
  | [] => none
  | c :: cs =>
      if c = Char.ofNat 45 then (readUnsigned cs).map (fun q => -q)
      else if c = Char.ofNat 43 then readUnsigned cs
      else readUnsigned (c :: cs)

/-- Python's float() builtin applied to a parsed JSON value: numbers
and booleans convert, decimal strings are read, anything else raises
(TypeError/ValueError), modelled as `none`. -/
def pyFloat : JsonValue → Option Rat
  | .num q => some q
  | .bool b => some (if b then 1 else 0)
  | .str s => readDecimal s
  | _ => none

/-- The structure built by process_question's parse step in api.py.
Field values are the raw JSON values copied out of the model's object
(so a non-string value supplied by the model is kept as is). -/
structure ApiAnswer where
  answer : JsonValue
  reason : JsonValue
  clause : JsonValue
  session_id : String

/-- api.py process_question lines 163-178: parse the model output.
`parsed` is the json.loads outcome on `responseText`. A valid-JSON
value that is not an object makes json_response.get raise
AttributeError, which escapes to the enclosing handler. -/
def apiParseResponse (parsed : Option JsonValue) (responseText sessionId : String) :
    Except PyExc ApiAnswer :=
  match parsed with
  | some (.obj o) =>
      .ok { answer := getD o "answer" (.str ""),
            reason := getD o "reason" (.str ""),
            clause := getD o "clause" (.str ""),
            session_id := sessionId }
  | some _ => .error (.generic "AttributeError: object has no attribute get")
  | none =>
      .ok { answer := .str responseText, reason := .str "",
            clause := .str "", session_id := sessionId }

/-- The structure built by process_enhanced_question in
enhanced_api.py. -/
structure EnhancedAnswer where
  answer : JsonValue
  reason : JsonValue
  clause : JsonValue
  confidence_score : Rat
  document_references : JsonValue
  session_id : String

/-- enhanced_api.py process_enhanced_question lines 309-334: parse the
model output. On the primary path confidence_score is converted with
float() — raising, hence failing the request, when a present value is
not convertible — and is not constrained further; the fallback path
builds the fixed low-confidence answer. -/
def enhancedParseResponse (parsed : Option JsonValue) (responseText sessionId : String) :
    Except PyExc EnhancedAnswer :=
  match parsed with
  | some (.obj o) =>
      match pyFloat (getD o "confidence_score" (.num 0.8)) with
      | some conf =>
          .ok { answer := getD o "answer" (.str ""),
                reason := getD o "reason" (.str ""),
                clause := getD o "clause" (.str ""),
                confidence_score := conf,
                document_references := getD o "document_references" (.arr []),
                session_id := sessionId }
      | none => .error (.generic "could not convert to float")
  | some _ => .error (.generic "AttributeError: object has no attribute get")
  | none =>
      .ok { answer := .str responseText,
            reason := .str "System could not parse structured response",
            clause := .str "Please refer to uploaded documents",
            confidence_score := 0.5,
            document_references := .arr [.str "Unknown"],
            session_id := sessionId }

/-- The structure returned by get_answer in simple_api.py. -/
structure SimpleAnswer where
  answer : JsonValue
  reason : JsonValue
  clause : JsonValue
  session_id : String

/-- simple_api.py get_answer lines 95-195: load the store, search,
invoke the model and parse; the enclosing except Exception catches
every raised exception — the model-call failures included — and turns
it into an ordinary answer whose text embeds the error message.
`load` and `model` are the outcomes of the external FAISS load and of
the model invocation; `parsed` is the json.loads outcome on the model
text. -/
def getAnswer (load : Except PyExc Unit) (model : Except PyExc String)
    (parsed : Option JsonValue) (sessionId : String) : SimpleAnswer :=
  let body : Except PyExc SimpleAnswer :=
    match load with
    | .error e => .error e
    | .ok _ =>
      match model with
      | .error e => .error e
      | .ok responseText =>
        match parsed with
        | some (.obj o) =>
            .ok { answer := getD o "answer" (.str ""),
                  reason := getD o "reason" (.str ""),
                  clause := getD o "clause" (.str ""),
                  session_id := sessionId }
        | some _ => .error (.generic "AttributeError: object has no attribute get")
        | none =>
            .ok { answer := .str responseText, reason := .str "",
                  clause := .str "", session_id := sessionId }
  match body with
  | .ok a => a
  | .error e =>
      { answer := .str ("Error: " ++ e.str), reason := .str "",
        clause := .str "", session_id := sessionId }

/-- The mutable server state, generic in the metadata type: the
per-session persisted FAISS indexes (directories sessions/<id> on
disk, each modelled by the texts its store was built from) and the
in-memory active_sessions table. -/
structure SysState (μ : Type) where
  disk : List (String × List String)
  table : List (String × μ)

/-- Lookup in an association list keyed by session id (Python dict
keys are unique, so first match is the match). -/
def lookupKey {α : Type} (l : List (String × α)) (k : String) : Option α :=
  match l with
  | [] => none
  | (k1, v) :: rest => if k1 = k then some v else lookupKey rest k

/-- Removal of a key (del d[k] / shutil.rmtree of the directory). -/
def eraseKey {α : Type} (l : List (String × α)) (k : String) : List (String × α) :=
  match l with
  | [] => []
  | (k1, v) :: rest => if k1 = k then rest else (k1, v) :: eraseKey rest k

/-- Python str.endswith, on the character lists of the strings. -/
def pyEndsWith (s pat : String) : Bool :=
  List.isSuffixOf pat.data s.data

/-- Python str.strip(): leading and trailing whitespace removed. -/
def pyStrip (s : String) : String :=
  String.mk (((s.data.dropWhile Char.isWhitespace).reverse.dropWhile
    Char.isWhitespace).reverse)

/-- api.py session metadata (lines 233-237). -/
structure ApiMeta where
  filename : String
  created_at : String
  processed : Bool

/-- enhanced_api.py session metadata (lines 400-407): chunks_count is
the number of extracted document chunks, processed_chunks the number
of texts actually indexed after splitting. -/
structure EnhMeta where
  filename : String
  document_type : String
  chunks_count : Nat
  processed_chunks : Nat
  created_at : String
  processed : Bool

/-- api.py process_question (lines 132-181). The body raises a 404
when the session id is not registered; the trailing
except Exception — HTTPException is a subclass of Exception and
api.py has no separate except HTTPException clause inside
process_question — re-raises every failure, that 404 included, as a
500. The index load fails when nothing is persisted for the id; the
model call and the json.loads outcome are external parameters. -/
def processQuestion (st : SysState ApiMeta) (sessionId : String)
    (model : Except PyExc String) (parsed : Option JsonValue) :
    Except PyExc ApiAnswer :=
  let body : Except PyExc ApiAnswer :=
    if (lookupKey st.table sessionId).isSome = false then
      .error (.http 404 "Session not found. Please upload a PDF first.")
    else
      match lookupKey st.disk sessionId with
      | none => .error (.generic "could not load FAISS index")
      | some _ =>
        match model with
        | .error e => .error e
        | .ok responseText => apiParseResponse parsed responseText sessionId
  match body with
  | .ok a => .ok a
  | .error e => .error (.http 500 ("Error processing question: " ++ e.str))

/-- enhanced_api.py process_enhanced_question (lines 284-337): same
shape as process_question with the enhanced parse step; here too the
trailing except Exception re-raises every failure, the internal 404
included, as a 500. -/
def processEnhancedQuestion (st : SysState EnhMeta) (sessionId : String)
    (model : Except PyExc String) (parsed : Option JsonValue) :
    Except PyExc EnhancedAnswer :=
  let body : Except PyExc EnhancedAnswer :=
    if (lookupKey st.table sessionId).isSome = false then
      .error (.http 404 "Session not found. Please upload a document first.")
    else
      match lookupKey st.disk sessionId with
      | none => .error (.generic "could not load FAISS index")
      | some _ =>
        match model with
        | .error e => .error e
        | .ok responseText => enhancedParseResponse parsed responseText sessionId
  match body with
  | .ok a => .ok a
  | .error e => .error (.http 500 ("Error processing question: " ++ e.str))

/-- simple_api.py ask_question (lines 246-253): the session check
happens in the endpoint, outside any try block, so an unknown id is a
clean 404; a known id always gets get_answer's (never-raising)
result. simple_api registers only the filename per session. -/
def askQuestionSimple (table : List (String × String)) (sessionId : String)
    (load : Except PyExc Unit) (model : Except PyExc String)
    (parsed : Option JsonValue) : Except PyExc SimpleAnswer :=
  if (lookupKey table sessionId).isSome = false then
    .error (.http 404 "Session not found")
  else
    .ok (getAnswer load model parsed sessionId)

/-- api.py upload_pdf (lines 199-249). `sessionId` stands for the
fresh uuid4; text extraction and the embedding/FAISS build are
external calls whose outcomes are parameters (the build fails before
anything is persisted when an embedding call fails). The returned
list holds the shared-state snapshots after each mutation, in
program order: first the index is persisted (save_local), only then
is the session registered. The 400s raised inside the try block are
re-raised by the trailing except Exception — there is no separate
except HTTPException clause in api.py upload_pdf — as a 500. -/
def uploadPdfBody (st : SysState ApiMeta) (sessionId filename : String)
    (extract : Except PyExc String) (split : String → List String)
    (embedOk : Bool) :
    List (SysState ApiMeta) × Except PyExc (String × String) :=
    if pyEndsWith filename (".pdf") = false then
      ([], .error (.http 400 "Only PDF files are allowed"))
    else
      match extract with
      | .error e => ([], .error e)
      | .ok rawText =>
        if pyStrip rawText = "" then
          ([], .error (.http 400 "Could not extract text from PDF"))
        else
          let textChunks := split rawText
          if embedOk = false then ([], .error (.generic "embedding failed"))
          else
            let st1 : SysState ApiMeta :=
              { st with disk := (sessionId, textChunks) :: st.disk }
            let st2 : SysState ApiMeta :=
              { st1 with table :=
                  (sessionId,
                   { filename := filename, created_at := "now",
                     processed := true }) :: st1.table }
            ([st1, st2],
             .ok ("PDF \x27" ++ filename ++ "\x27 processed successfully",
                  sessionId))

/-- The full endpoint: the try-block body above, wrapped by the
trailing except Exception, which touches only the outcome, never the
shared state. -/
def uploadPdf (st : SysState ApiMeta) (sessionId filename : String)
    (extract : Except PyExc String) (split : String → List String)
    (embedOk : Bool) :
    List (SysState ApiMeta) × Except PyExc (String × String) :=
  let body := uploadPdfBody st sessionId filename extract split embedOk
  (body.1,
   match body.2 with
   | .ok r => .ok r
   | .error e => .error (.http 500 ("Error processing PDF: " ++ e.str)))

/-- One extracted block of an uploaded document
(enhanced_api.py DocumentChunk, lines 71-75). -/
structure DocumentChunk where
  content : String
  source : String
  page_number : Option Nat
  paragraph_number : Option Nat

/-- The provenance tag prepended to a chunk by
create_enhanced_text_chunks (lines 193-199); the page and paragraph
numbers are appended under Python truthiness, so a 0 is treated like
a missing number. -/
def chunkTag (c : DocumentChunk) : String :=
  "[Source: " ++ c.source
    ++ (match c.page_number with
        | some p => if p = 0 then "" else ", Page: " ++ toString p
        | none => "")
    ++ (match c.paragraph_number with
        | some q => if q = 0 then "" else ", Paragraph: " ++ toString q
        | none => "")
    ++ "]\n\n"

/-- enhanced_api.py create_enhanced_text_chunks (lines 188-213): each
document chunk gets its provenance tag prepended and the tagged text
is then split by the langchain splitter (external; chunk_size 8000,
overlap 1000, separators paragraph/line/sentence/space/character in
the source), all sub-chunks concatenated in order. -/
def createEnhancedTextChunks (split : String → List String)
    (docChunks : List DocumentChunk) : List String :=
  (docChunks.map (fun c => split (chunkTag c ++ c.content))).flatten

/-- Document type label chosen by process_document (lines 167-186)
from the lowercased file extension. -/
def docTypeOf (fileExt : String) : String :=
  if fileExt = "pdf" then "PDF"
  else if fileExt = "docx" ∨ fileExt = "doc" then "Word Document"
  else "Email/Text"

/-- enhanced_api.py upload_document (lines 363-423) with
process_document (167-186) inlined: extension gate, extraction
outcome (the per-format extractors call external readers), the
empty-content 400, chunking, index build and persistence, then
metadata registration, in source order; the returned list holds the
shared-state snapshots after each mutation. This endpoint re-raises
HTTPException unchanged and wraps only other exceptions in a 500. -/
def uploadDocumentBody (st : SysState EnhMeta) (sessionId filename fileExt : String)
    (extract : Except PyExc (List DocumentChunk)) (split : String → List String)
    (embedOk : Bool) :
    List (SysState EnhMeta) × Except PyExc (String × String) :=
    if (["pdf", "docx", "doc", "eml", "msg", "txt"].contains fileExt) = false then
      ([], .error (.http 400 "Unsupported file type. Allowed: pdf, docx, doc, eml, msg, txt"))
    else
      match extract with
      | .error e => ([], .error e)
      | .ok docChunks =>
        if docChunks.isEmpty then
          ([], .error (.http 400 "No text content found in document"))
        else
          let textChunks := createEnhancedTextChunks split docChunks
          if embedOk = false then ([], .error (.generic "embedding failed"))
          else
            let docType := docTypeOf fileExt
            let st1 : SysState EnhMeta :=
              { st with disk := (sessionId, textChunks) :: st.disk }
            let meta : EnhMeta :=
              { filename := filename, document_type := docType,
                chunks_count := docChunks.length,
                processed_chunks := textChunks.length,
                created_at := "now", processed := true }
            let st2 : SysState EnhMeta :=
              { st1 with table := (sessionId, meta) :: st1.table }
            ([st1, st2],
             .ok (docType ++ " \x27" ++ filename ++ "\x27 processed successfully",
                  sessionId))

/-- The full endpoint: the try-block body above, wrapped by the
trailing handlers (except HTTPException re-raises unchanged, except
Exception wraps in a 500); the shared state is untouched by both. -/
def uploadDocument (st : SysState EnhMeta) (sessionId filename fileExt : String)
    (extract : Except PyExc (List DocumentChunk)) (split : String → List String)
    (embedOk : Bool) :
    List (SysState EnhMeta) × Except PyExc (String × String) :=
  let body := uploadDocumentBody st sessionId filename fileExt extract split embedOk
  (body.1,
   match body.2 with
   | .ok r => .ok r
   | .error (.http s d) => .error (.http s d)
   | .error (.generic m) =>
       .error (.http 500 ("Error processing document: " ++ m)))

/-- api.py delete_session (lines 279-299) and the behaviourally
identical enhanced_api.py delete_session (451-466): an unknown id is
a clean 404 (the check sits before the try block); for a known id the
persisted index directory is removed first — guarded by
os.path.exists, so a missing directory is simply skipped — and the
metadata entry second. The returned list holds the shared-state
snapshots after each of the two steps, in program order. -/
def deleteSession {μ : Type} (st : SysState μ) (sessionId : String) :
    List (SysState μ) × Except PyExc String :=
  if (lookupKey st.table sessionId).isSome = false then
    ([], .error (.http 404 "Session not found"))
  else
    let st1 : SysState μ :=
      if (lookupKey st.disk sessionId).isSome then
        { st with disk := eraseKey st.disk sessionId }
      else st
    let st2 : SysState μ := { st1 with table := eraseKey st1.table sessionId }
    ([st1, st2], .ok ("Session " ++ sessionId ++ " deleted successfully"))

/-- api.py get_session_info (lines 266-277) / enhanced_api.py
(440-449): metadata lookup, 404 on an unknown id. -/
def getSessionInfo {μ : Type} (st : SysState μ) (sessionId : String) :
    Except PyExc (String × μ) :=
  match lookupKey st.table sessionId with
  | none => .error (.http 404 "Session not found")
  | some info => .ok (sessionId, info)

/-- The session's persisted index as resolvable from disk
(FAISS.load_local on sessions/<id>): `none` when nothing is persisted
there, in which case the load raises a not-found failure; otherwise
the texts the persisted store holds. -/
def resolveIndex {μ : Type} (st : SysState μ) (sessionId : String) :
    Option (List String) :=
  lookupKey st.disk sessionId

/-- Observer invariant of claim C4: every registered session has a
persisted index. -/
def regImpliesPersisted {μ : Type} (st : SysState μ) : Bool :=
  st.table.all (fun p => (lookupKey st.disk p.1).isSome)

/-- A degenerate splitter (text short enough to stay in one chunk),
used to instantiate external-splitter parameters in witnesses. -/
def idSplit (t : String) : List String := [t]

/-! A concrete instance of the external splitter for the C7
counterexample. With the configuration of create_enhanced_text_chunks
(chunk_size 8000, chunk_overlap 1000) the langchain splitter, on text
containing none of its separators, falls back to hard character cuts:
chunks of at most 8000 characters stepping by 7000. -/

def hardSplitAux : Nat → List Char → List (List Char)
  | 0, cs => [cs]
  | fuel + 1, cs =>
      if cs.length ≤ 8000 then [cs]
      else cs.take 8000 :: hardSplitAux fuel (cs.drop 7000)

/-- Hard-cut splitting of a string, character-exact on separator-free
text for the configured chunk size 8000 and overlap 1000. -/
def hardSplit (text : String) : List String :=
  (hardSplitAux text.data.length text.data).map String.mk

/-- 9000 characters of separator-free text, standing for one long PDF
page. -/
def bigText : String := String.mk (List.replicate 9000 (Char.ofNat 97))

/-- A single extracted document chunk whose tagged content exceeds the
8000-character chunk size, so the splitter must cut it in two. -/
def bigChunk : DocumentChunk :=
  { content := bigText, source := "PDF_Page_1", page_number := some 1,
    paragraph_number := none }

/-! Helper lemmas about the association-list state. -/

theorem lookupKey_eq_none_of_not_mem {α : Type} (l : List (String × α)) (k : String)
    (h : k ∉ l.map Prod.fst) : lookupKey l k = none := by
  induction l with
  | nil => rfl
  | cons p rest ih =>
      simp only [List.map_cons, List.mem_cons] at h
      push_neg at h
      simp only [lookupKey]
      rw [if_neg (fun hk => h.1 hk.symm)]
      exact ih h.2

theorem lookupKey_eraseKey_self {α : Type} (l : List (String × α)) (k : String)
    (h : (l.map Prod.fst).Nodup) : lookupKey (eraseKey l k) k = none := by
  induction l with
  | nil => rfl
  | cons p rest ih =>
      obtain ⟨hnotin, hnd⟩ := List.nodup_cons.mp h
      simp only [eraseKey]
      by_cases hk : p.1 = k
      · rw [if_pos hk]
        exact lookupKey_eq_none_of_not_mem rest k (hk ▸ hnotin)
      · rw [if_neg hk]
        simp only [lookupKey]
        rw [if_neg hk]
        exact ih hnd

theorem getSessionInfo_not_found {μ : Type} (st : SysState μ) (sid : String)
    (h : lookupKey st.table sid = none) :
    getSessionInfo st sid = .error (.http 404 "Session not found") := by
  unfold getSessionInfo
  rw [h]

theorem regImpliesPersisted_disk_cons {μ : Type} (st : SysState μ) (k : String)
    (v : List String) (h : regImpliesPersisted st = true) :
    regImpliesPersisted { st with disk := (k, v) :: st.disk } = true := by
  simp only [regImpliesPersisted, List.all_eq_true] at h ⊢
  intro p hp
  have hold := h p hp
  simp only [lookupKey]
  by_cases hk : k = p.1
  · rw [if_pos hk]; rfl
  · rw [if_neg hk]; exact hold

theorem regImpliesPersisted_register {μ : Type} (st : SysState μ) (k : String)
    (v : List String) (m : μ) (h : regImpliesPersisted st = true) :
    regImpliesPersisted
      { disk := (k, v) :: st.disk, table := (k, m) :: st.table } = true := by
  simp only [regImpliesPersisted, List.all_eq_true] at h ⊢
  intro p hp
  rcases List.mem_cons.mp hp with hhd | htl
  · subst hhd
    simp only [lookupKey, if_pos rfl]
    rfl
  · have hold := h p htl
    simp only [lookupKey]
    by_cases hk : k = p.1
    · rw [if_pos hk]; rfl
    · rw [if_neg hk]; exact hold

/-- The shared-state snapshots of api.py upload_pdf: either nothing
was mutated (some step failed first), or the index was persisted and
then the session registered, in that order. -/
theorem uploadPdf_trace_cases (st : SysState ApiMeta) (sid f : String)
    (ext : Except PyExc String) (split : String → List String) (eb : Bool) :
    (uploadPdf st sid f ext split eb).1 = [] ∨
    ∃ txts : List String,
      (uploadPdf st sid f ext split eb).1 =
        [{ st with disk := (sid, txts) :: st.disk },
         { disk := (sid, txts) :: st.disk,
           table := (sid, { filename := f, created_at := "now",
                            processed := true }) :: st.table }] := by
  have hfst : (uploadPdf st sid f ext split eb).1
      = (uploadPdfBody st sid f ext split eb).1 := rfl
  rw [hfst]
  unfold uploadPdfBody
  by_cases h1 : pyEndsWith f (".pdf") = false
  · rw [if_pos h1]; exact Or.inl rfl
  · rw [if_neg h1]
    rcases ext with e | raw
    · exact Or.inl rfl
    · dsimp only
      by_cases h2 : pyStrip raw = ""
      · rw [if_pos h2]; exact Or.inl rfl
      · rw [if_neg h2]
        cases eb
        · exact Or.inl rfl
        · exact Or.inr ⟨split raw, rfl⟩

/-- The shared-state snapshots of enhanced_api.py upload_document:
either nothing was mutated, or the index was persisted and then the
session registered, in that order. -/
theorem uploadDocument_trace_cases (st : SysState EnhMeta) (sid f fe : String)
    (ext : Except PyExc (List DocumentChunk)) (split : String → List String)
    (eb : Bool) :
    (uploadDocument st sid f fe ext split eb).1 = [] ∨
    ∃ dc : List DocumentChunk,
      (uploadDocument st sid f fe ext split eb).1 =
        [{ st with disk := (sid, createEnhancedTextChunks split dc) :: st.disk },
         { disk := (sid, createEnhancedTextChunks split dc) :: st.disk,
           table := (sid, { filename := f, document_type := docTypeOf fe,
                            chunks_count := dc.length,
                            processed_chunks := (createEnhancedTextChunks split dc).length,
                            created_at := "now",
                            processed := true }) :: st.table }] := by
  have hfst : (uploadDocument st sid f fe ext split eb).1
      = (uploadDocumentBody st sid f fe ext split eb).1 := rfl
  rw [hfst]
  unfold uploadDocumentBody
  by_cases h1 : (["pdf", "docx", "doc", "eml", "msg", "txt"].contains fe) = false
  · rw [if_pos h1]; exact Or.inl rfl
  · rw [if_neg h1]
    rcases ext with e | dc
    · exact Or.inl rfl
    · dsimp only
      by_cases h2 : dc.isEmpty = true
      · rw [if_pos h2]; exact Or.inl rfl
      · rw [if_neg h2]
        cases eb
        · exact Or.inl rfl
        · exact Or.inr ⟨dc, rfl⟩

theorem hardSplitAux_small (fuel : Nat) (cs : List Char) (h : cs.length ≤ 8000) :
    hardSplitAux fuel cs = [cs] := by
  cases fuel with
  | zero => rfl
  | succ n =>
      unfold hardSplitAux
      rw [if_pos h]

theorem hardSplitAux_two (fuel : Nat) (cs : List Char)
    (h1 : 8000 < cs.length) (h2 : cs.length ≤ 15000) (hf : 1 ≤ fuel) :
    (hardSplitAux fuel cs).length = 2 := by
  cases fuel with
  | zero => omega
  | succ n =>
      unfold hardSplitAux
      rw [if_neg (by omega)]
      rw [hardSplitAux_small n (cs.drop 7000)
        (by rw [List.length_drop]; omega)]
      rfl

theorem hardSplit_two (s : String) (h1 : 8000 < s.data.length)
    (h2 : s.data.length ≤ 15000) : (hardSplit s).length = 2 := by
  unfold hardSplit
  rw [List.length_map]
  exact hardSplitAux_two _ _ h1 h2 (by omega)

theorem bigChunk_splits_in_two :
    (createEnhancedTextChunks hardSplit [bigChunk]).length = 2 := by
  have htag : (chunkTag bigChunk).data.length = 31 := by decide
  have hbig : bigText.data.length = 9000 := by
    show (List.replicate 9000 (Char.ofNat 97)).length = 9000
    exact List.length_replicate 9000 _
  have hlen : (chunkTag bigChunk ++ bigChunk.content).data.length = 9031 := by
    rw [String.data_append, List.length_append, htag]
    have : bigChunk.content = bigText := rfl
    rw [this, hbig]
  simp only [createEnhancedTextChunks, List.map, List.flatten, List.append_nil]
  exact hardSplit_two _ (by omega) (by omega)

/-! The claims. -/

/-- Claim C1, counterexample: the claim quantifies over the synthesis
steps of both cited files, but api.py's fallback on non-JSON model
output returns the raw text with an empty reason — not a sentinel
explaining the parse failure — and its result carries no confidence
field at all, so no confidence equals 0.5 there. -/
theorem api_fallback_lacks_confidence :
    apiParseResponse none "not json at all" "s1" =
      .ok { answer := .str "not json at all", reason := .str "",
            clause := .str "", session_id := "s1" }
    ∧ JsonValue.str "" ≠ JsonValue.str "System could not parse structured response" :=
  ⟨rfl, by simp⟩

/-- Claim C1, amended: on model output that is not valid JSON, every
synthesis step returns normally (never raises) with the raw model
text as the non-null answer; the enhanced step moreover uses the
fixed parse-failure sentinel as reason and confidence 0.5, while the
basic and simple fallbacks return an empty reason and a result with
no confidence field. -/
theorem fallback_never_raises (responseText sessionId : String) :
    enhancedParseResponse none responseText sessionId =
      .ok { answer := .str responseText,
            reason := .str "System could not parse structured response",
            clause := .str "Please refer to uploaded documents",
            confidence_score := 0.5,
            document_references := .arr [.str "Unknown"],
            session_id := sessionId }
    ∧ apiParseResponse none responseText sessionId =
      .ok { answer := .str responseText, reason := .str "",
            clause := .str "", session_id := sessionId }
    ∧ getAnswer (.ok ()) (.ok responseText) none sessionId =
      { answer := .str responseText, reason := .str "",
        clause := .str "", session_id := sessionId } :=
  ⟨rfl, rfl, rfl⟩

/-- Claim C2, counterexample: in simple_api.py a failing model call
(here a quota error raised by the model invocation) is caught by
get_answer's blanket handler and returned to the caller as an
ordinary 200 answer whose text embeds the error — not as a distinct
synthesis-failure error. -/
theorem model_failure_returned_as_answer :
    askQuestionSimple [("s1", "policy.pdf")] "s1" (.ok ())
        (.error (.generic "503 quota exceeded")) none =
      .ok { answer := .str "Error: 503 quota exceeded", reason := .str "",
            clause := .str "", session_id := "s1" } := rfl

/-- Claim C2, amended: the basic and enhanced question operations
report an upstream model-call failure as an error (HTTP 500) and
never return an ordinary answer built from it; the simple API
converts the failure into an ordinary answer embedding the error
text. -/
theorem model_failure_reported (stA : SysState ApiMeta) (stE : SysState EnhMeta)
    (sidA sidE : String) (e1 e2 : PyExc) (parsedA parsedE : Option JsonValue)
    (hA : (lookupKey stA.table sidA).isSome = true)
    (hDA : (lookupKey stA.disk sidA).isSome = true)
    (hE : (lookupKey stE.table sidE).isSome = true)
    (hDE : (lookupKey stE.disk sidE).isSome = true) :
    processQuestion stA sidA (.error e1) parsedA =
      .error (.http 500 ("Error processing question: " ++ e1.str))
    ∧ processEnhancedQuestion stE sidE (.error e2) parsedE =
      .error (.http 500 ("Error processing question: " ++ e2.str)) := by
  obtain ⟨vA, hvA⟩ := Option.isSome_iff_exists.mp hDA
  obtain ⟨vE, hvE⟩ := Option.isSome_iff_exists.mp hDE
  constructor
  · simp only [processQuestion, hA, hvA]
    rfl
  · simp only [processEnhancedQuestion, hE, hvE]
    rfl

/-- Claim C2, witness: the amended theorem applied to concrete
one-session states and a concrete model failure. -/
theorem model_failure_reported_witness :
    processQuestion ⟨[("a", ["t"])], [("a", ⟨"f.pdf", "now", true⟩)]⟩ "a"
        (.error (.generic "timeout")) none =
      .error (.http 500 ("Error processing question: "
        ++ PyExc.str (.generic "timeout")))
    ∧ processEnhancedQuestion
        ⟨[("b", ["t"])], [("b", ⟨"f.pdf", "PDF", 1, 1, "now", true⟩)]⟩ "b"
        (.error (.generic "timeout")) none =
      .error (.http 500 ("Error processing question: "
        ++ PyExc.str (.generic "timeout"))) :=
  model_failure_reported ⟨[("a", ["t"])], [("a", ⟨"f.pdf", "now", true⟩)]⟩
    ⟨[("b", ["t"])], [("b", ⟨"f.pdf", "PDF", 1, 1, "now", true⟩)]⟩ "a" "b"
    (.generic "timeout") (.generic "timeout") none none rfl rfl rfl rfl

/-- Claim C3: asking with an unregistered session id does NOT surface
as a clean 404 in api.py and enhanced_api.py — the 404 raised inside
the try block is caught by the functions' own except Exception and
re-raised as a generic 500 whose detail merely embeds the original
404 text; only simple_api.py, whose check sits outside any try block,
returns the clean 404 the claim describes. -/
theorem unknown_session_surfaces_as_500 :
    processQuestion ⟨[], []⟩ "no-such-session" (.ok "Yes") none =
      .error (.http 500
        "Error processing question: 404: Session not found. Please upload a PDF first.")
    ∧ processEnhancedQuestion ⟨[], []⟩ "no-such-session" (.ok "Yes") none =
      .error (.http 500
        "Error processing question: 404: Session not found. Please upload a document first.")
    ∧ askQuestionSimple [] "no-such-session" (.ok ()) (.ok "Yes") none =
      .error (.http 404 "Session not found") :=
  ⟨rfl, rfl, rfl⟩

/-- Claim C4: during an upload, the index is persisted to disk before
the session is registered, so starting from any state in which every
registered session has a persisted index, every observable
intermediate state of upload_pdf and upload_document — and in
particular the final one — still has that property: no observer ever
sees a registered session without a persisted index. -/
theorem index_persisted_before_registration (stA : SysState ApiMeta)
    (stE : SysState EnhMeta) (sidA fA : String) (extA : Except PyExc String)
    (splitA : String → List String) (ebA : Bool) (sidE fE feE : String)
    (extE : Except PyExc (List DocumentChunk)) (splitE : String → List String)
    (ebE : Bool) (hA : regImpliesPersisted stA = true)
    (hE : regImpliesPersisted stE = true) :
    (uploadPdf stA sidA fA extA splitA ebA).1.all regImpliesPersisted = true
    ∧ (uploadDocument stE sidE fE feE extE splitE ebE).1.all
        regImpliesPersisted = true := by
  constructor
  · rcases uploadPdf_trace_cases stA sidA fA extA splitA ebA with h | ⟨txts, h⟩
    · rw [h]; rfl
    · rw [h]
      have h1 := regImpliesPersisted_disk_cons stA sidA txts hA
      have h2 := regImpliesPersisted_register stA sidA txts
        { filename := fA, created_at := "now", processed := true } hA
      simp [List.all_cons, h1, h2]
  · rcases uploadDocument_trace_cases stE sidE fE feE extE splitE ebE with h | ⟨dc, h⟩
    · rw [h]; rfl
    · rw [h]
      have h1 := regImpliesPersisted_disk_cons stE sidE
        (createEnhancedTextChunks splitE dc) hE
      have h2 := regImpliesPersisted_register stE sidE
        (createEnhancedTextChunks splitE dc)
        { filename := fE, document_type := docTypeOf feE,
          chunks_count := dc.length,
          processed_chunks := (createEnhancedTextChunks splitE dc).length,
          created_at := "now", processed := true } hE
      simp [List.all_cons, h1, h2]

/-- Claim C4, witness: the invariant-preservation theorem applied to
two concrete successful uploads starting from the empty state. -/
theorem index_persisted_before_registration_witness :
    (uploadPdf ⟨[], []⟩ "w4a" "a.pdf" (.ok "hello") idSplit true).1.all
        regImpliesPersisted = true
    ∧ (uploadDocument ⟨[], []⟩ "w4e" "b.txt" "txt"
        (.ok [{ content := "hi", source := "Text_File", page_number := none,
                paragraph_number := some 1 }]) idSplit true).1.all
        regImpliesPersisted = true :=
  index_persisted_before_registration ⟨[], []⟩ ⟨[], []⟩ "w4a" "a.pdf"
    (.ok "hello") idSplit true "w4e" "b.txt" "txt"
    (.ok [{ content := "hi", source := "Text_File", page_number := none,
            paragraph_number := some 1 }]) idSplit true rfl rfl

/-- Claim C5: deleting an unknown session id returns a clean 404;
deleting a known one removes the persisted index (first intermediate
state: metadata still present, index already gone) before removing
the metadata entry, and afterwards the metadata lookup returns 404
and the persisted index no longer resolves. Key uniqueness of the
two Python dicts is assumed as the Nodup hypotheses. -/
theorem delete_removes_index_then_metadata {μ : Type} (st : SysState μ)
    (sid : String) (hT : (st.table.map Prod.fst).Nodup)
    (hD : (st.disk.map Prod.fst).Nodup) :
    (lookupKey st.table sid = none →
      deleteSession st sid = ([], .error (.http 404 "Session not found")))
    ∧ ((lookupKey st.table sid).isSome = true →
      (deleteSession st sid).2
          = .ok ("Session " ++ sid ++ " deleted successfully")
      ∧ ((deleteSession st sid).1.getD 0 ⟨[], []⟩).table = st.table
      ∧ lookupKey ((deleteSession st sid).1.getD 0 ⟨[], []⟩).disk sid = none
      ∧ lookupKey ((deleteSession st sid).1.getD 1 ⟨[], []⟩).table sid = none
      ∧ resolveIndex ((deleteSession st sid).1.getD 1 ⟨[], []⟩) sid = none
      ∧ getSessionInfo ((deleteSession st sid).1.getD 1 ⟨[], []⟩) sid
          = .error (.http 404 "Session not found")) := by
  constructor
  · intro h
    unfold deleteSession
    rw [h]
    rfl
  · intro h
    have herase := lookupKey_eraseKey_self st.table sid hT
    by_cases hd : (lookupKey st.disk sid).isSome = true
    · have hde := lookupKey_eraseKey_self st.disk sid hD
      have hds : deleteSession st sid =
          ([{ st with disk := eraseKey st.disk sid },
            { disk := eraseKey st.disk sid, table := eraseKey st.table sid }],
           .ok ("Session " ++ sid ++ " deleted successfully")) := by
        simp only [deleteSession, h, hd]
        rfl
      rw [hds]
      exact ⟨rfl, rfl, hde, herase, hde,
        getSessionInfo_not_found
          (⟨eraseKey st.disk sid, eraseKey st.table sid⟩ : SysState μ) sid herase⟩
    · have hdn : lookupKey st.disk sid = none := by
        cases hlk : lookupKey st.disk sid with
        | none => rfl
        | some v => rw [hlk] at hd; simp at hd
      have hds : deleteSession st sid =
          ([st, { disk := st.disk, table := eraseKey st.table sid }],
           .ok ("Session " ++ sid ++ " deleted successfully")) := by
        simp only [deleteSession, h, hdn]
        rfl
      rw [hds]
      exact ⟨rfl, rfl, hdn, herase, hdn,
        getSessionInfo_not_found
          (⟨st.disk, eraseKey st.table sid⟩ : SysState μ) sid herase⟩

/-- Claim C5, witness: the delete theorem applied to a concrete
one-session state in which the index is persisted. -/
theorem delete_removes_index_then_metadata_witness :
    (deleteSession (⟨[("s5", ["t"])], [("s5", ⟨"f.pdf", "now", true⟩)]⟩ :
        SysState ApiMeta) "s5").2
        = .ok ("Session " ++ "s5" ++ " deleted successfully")
    ∧ ((deleteSession (⟨[("s5", ["t"])], [("s5", ⟨"f.pdf", "now", true⟩)]⟩ :
        SysState ApiMeta) "s5").1.getD 0 ⟨[], []⟩).table
        = [("s5", ⟨"f.pdf", "now", true⟩)]
    ∧ lookupKey ((deleteSession (⟨[("s5", ["t"])],
        [("s5", ⟨"f.pdf", "now", true⟩)]⟩ : SysState ApiMeta) "s5").1.getD 0
        ⟨[], []⟩).disk "s5" = none
    ∧ lookupKey ((deleteSession (⟨[("s5", ["t"])],
        [("s5", ⟨"f.pdf", "now", true⟩)]⟩ : SysState ApiMeta) "s5").1.getD 1
        ⟨[], []⟩).table "s5" = none
    ∧ resolveIndex ((deleteSession (⟨[("s5", ["t"])],
        [("s5", ⟨"f.pdf", "now", true⟩)]⟩ : SysState ApiMeta) "s5").1.getD 1
        ⟨[], []⟩) "s5" = none
    ∧ getSessionInfo ((deleteSession (⟨[("s5", ["t"])],
        [("s5", ⟨"f.pdf", "now", true⟩)]⟩ : SysState ApiMeta) "s5").1.getD 1
        ⟨[], []⟩) "s5" = .error (.http 404 "Session not found") :=
  (delete_removes_index_then_metadata
    (⟨[("s5", ["t"])], [("s5", ⟨"f.pdf", "now", true⟩)]⟩ : SysState ApiMeta)
    "s5" (by simp) (by simp)).2 rfl

/-- Claim C6, counterexample: on the primary path a numeric
confidence_score of 3.7 is copied through unclamped (3.7 is outside
the interval claimed), and a present non-numeric value (JSON null)
makes float() raise, failing the request instead of defaulting to
0.8. -/
theorem confidence_not_clamped :
    enhancedParseResponse (some (.obj [("confidence_score", .num 3.7)])) "x" "s6" =
      .ok { answer := .str "", reason := .str "", clause := .str "",
            confidence_score := 3.7, document_references := .arr [],
            session_id := "s6" }
    ∧ ¬ ((3.7 : Rat) ≤ 1)
    ∧ enhancedParseResponse (some (.obj [("confidence_score", .null)])) "x" "s6" =
      .error (.generic "could not convert to float") :=
  ⟨rfl, by norm_num, rfl⟩

/-- Claim C6, amended: on the primary path, confidence_score defaults
to 0.8 only when the field is absent; a present convertible value is
copied through float() verbatim with no clamping, and a present
non-convertible value fails the parse with an exception instead of
defaulting. -/
theorem confidence_copied_unclamped (o : List (String × JsonValue))
    (rt sid : String) :
    (getField o "confidence_score" = none →
      enhancedParseResponse (some (.obj o)) rt sid =
        .ok { answer := getD o "answer" (.str ""),
              reason := getD o "reason" (.str ""),
              clause := getD o "clause" (.str ""),
              confidence_score := 0.8,
              document_references := getD o "document_references" (.arr []),
              session_id := sid })
    ∧ (∀ v q, getField o "confidence_score" = some v → pyFloat v = some q →
      enhancedParseResponse (some (.obj o)) rt sid =
        .ok { answer := getD o "answer" (.str ""),
              reason := getD o "reason" (.str ""),
              clause := getD o "clause" (.str ""),
              confidence_score := q,
              document_references := getD o "document_references" (.arr []),
              session_id := sid })
    ∧ (∀ v, getField o "confidence_score" = some v → pyFloat v = none →
      enhancedParseResponse (some (.obj o)) rt sid =
        .error (.generic "could not convert to float")) := by
  refine ⟨fun h => ?_, fun v q hv hq => ?_, fun v hv hq => ?_⟩
  · simp only [enhancedParseResponse, getD, h, Option.getD_none, pyFloat]
  · simp only [enhancedParseResponse, getD, hv, Option.getD_some, hq]
  · simp only [enhancedParseResponse, getD, hv, Option.getD_some, hq]

/-- Claim C6, witness: the amended theorem applied to a concrete
object carrying confidence_score 2, which is copied through even
though it lies outside [0,1]. -/
theorem confidence_copied_unclamped_witness :
    enhancedParseResponse (some (.obj [("confidence_score", .num 2)])) "w" "s" =
      .ok { answer := .str "", reason := .str "", clause := .str "",
            confidence_score := 2, document_references := .arr [],
            session_id := "s" } :=
  (confidence_copied_unclamped [("confidence_score", .num 2)] "w" "s").2.1
    (.num 2) 2 rfl rfl

/-- Claim C7, counterexample: uploading a single long extracted chunk
(9000 separator-free characters) registers metadata whose
chunks_count is 1 while the persisted index holds 2 passages — the
chunks_count field records the pre-split extraction count, not the
index's passage count. -/
theorem chunk_count_diverges_from_index :
    ((lookupKey ((uploadDocument ⟨[], []⟩ "s7" "policy.pdf" "pdf"
          (.ok [bigChunk]) hardSplit true).1.getD 1 ⟨[], []⟩).table "s7").map
        EnhMeta.chunks_count) = some 1
    ∧ ((resolveIndex ((uploadDocument ⟨[], []⟩ "s7" "policy.pdf" "pdf"
          (.ok [bigChunk]) hardSplit true).1.getD 1 ⟨[], []⟩) "s7").map
        List.length) = some 2 := by
  have h := bigChunk_splits_in_two
  constructor
  · simp [uploadDocument, uploadDocumentBody, lookupKey]
  · simp [uploadDocument, uploadDocumentBody, resolveIndex, lookupKey, h]

/-- Claim C7, amended: for every successful ingestion it is the
processed_chunks field of the session metadata that equals the number
of passages stored in the session's persisted index (chunks_count
records the pre-split extraction count instead). -/
theorem processed_chunks_matches_index (st : SysState EnhMeta)
    (sid f fe : String) (dc : List DocumentChunk)
    (split : String → List String)
    (hfe : (["pdf", "docx", "doc", "eml", "msg", "txt"].contains fe) = true)
    (hne : dc.isEmpty = false) :
    (lookupKey ((uploadDocument st sid f fe (.ok dc) split true).1.getD 1
        ⟨[], []⟩).table sid).map EnhMeta.processed_chunks
      = (resolveIndex ((uploadDocument st sid f fe (.ok dc) split true).1.getD 1
        ⟨[], []⟩) sid).map List.length := by
  have hfe2 : ¬ ((["pdf", "docx", "doc", "eml", "msg", "txt"].contains fe) = false) := by
    rw [hfe]; simp
  have hne2 : ¬ (dc.isEmpty = true) := by rw [hne]; simp
  simp only [uploadDocument, uploadDocumentBody, if_neg hfe2, if_neg hne2,
    resolveIndex, lookupKey, List.getD_cons_succ, List.getD_cons_zero]
  simp

/-- Claim C7, witness: the amended theorem applied to a concrete
one-chunk text upload. -/
theorem processed_chunks_matches_index_witness :
    (lookupKey ((uploadDocument ⟨[], []⟩ "w7" "n.txt" "txt"
        (.ok [{ content := "hi", source := "Text_File", page_number := none,
                paragraph_number := some 1 }]) idSplit true).1.getD 1
        ⟨[], []⟩).table "w7").map EnhMeta.processed_chunks
      = (resolveIndex ((uploadDocument ⟨[], []⟩ "w7" "n.txt" "txt"
        (.ok [{ content := "hi", source := "Text_File", page_number := none,
                paragraph_number := some 1 }]) idSplit true).1.getD 1
        ⟨[], []⟩) "w7").map List.length :=
  processed_chunks_matches_index ⟨[], []⟩ "w7" "n.txt" "txt"
    [{ content := "hi", source := "Text_File", page_number := none,
       paragraph_number := some 1 }] idSplit rfl rfl

/-- Claim C8: a PDF whose extracted text is whitespace-only is
rejected before anything is persisted or registered (the empty trace:
no state mutation happened), but in api.py the 400 input error raised
for it is caught by the endpoint's own except Exception and surfaces
as a 500 internal error embedding the 400 text; enhanced_api.py, with
its except HTTPException re-raise, keeps the 400 for its analogous
no-content case. -/
theorem blank_pdf_surfaces_as_500 :
    uploadPdf ⟨[], []⟩ "s8" "blank.pdf" (.ok "   \n ") idSplit true =
      ([], .error (.http 500
        "Error processing PDF: 400: Could not extract text from PDF"))
    ∧ uploadDocument ⟨[], []⟩ "s8b" "empty.pdf" "pdf" (.ok []) idSplit true =
      ([], .error (.http 400 "No text content found in document")) :=
  ⟨rfl, rfl⟩

/-- Claim C9: deleting a known session whose persisted index
directory is absent still succeeds — the filesystem removal is
guarded by the existence check, so the delete returns the success
message, leaves the disk untouched, and removes the metadata
entry. -/
theorem delete_succeeds_without_index {μ : Type} (st : SysState μ)
    (sid : String) (hreg : (lookupKey st.table sid).isSome = true)
    (hnodisk : lookupKey st.disk sid = none)
    (hT : (st.table.map Prod.fst).Nodup) :
    (deleteSession st sid).2 = .ok ("Session " ++ sid ++ " deleted successfully")
    ∧ ((deleteSession st sid).1.getD 1 ⟨[], []⟩).disk = st.disk
    ∧ lookupKey ((deleteSession st sid).1.getD 1 ⟨[], []⟩).table sid = none := by
  have hds : deleteSession st sid =
      ([st, { disk := st.disk, table := eraseKey st.table sid }],
       .ok ("Session " ++ sid ++ " deleted successfully")) := by
    simp only [deleteSession, hreg, hnodisk]
    rfl
  rw [hds]
  exact ⟨rfl, rfl, lookupKey_eraseKey_self st.table sid hT⟩

/-- Claim C9, witness: the theorem applied to a concrete state whose
only session has no persisted index directory. -/
theorem delete_succeeds_without_index_witness :
    (deleteSession (⟨[], [("s9", ⟨"f.pdf", "now", true⟩)]⟩ : SysState ApiMeta)
        "s9").2 = .ok ("Session " ++ "s9" ++ " deleted successfully")
    ∧ ((deleteSession (⟨[], [("s9", ⟨"f.pdf", "now", true⟩)]⟩ :
        SysState ApiMeta) "s9").1.getD 1 ⟨[], []⟩).disk = []
    ∧ lookupKey ((deleteSession (⟨[], [("s9", ⟨"f.pdf", "now", true⟩)]⟩ :
        SysState ApiMeta) "s9").1.getD 1 ⟨[], []⟩).table "s9" = none :=
  delete_succeeds_without_index
    (⟨[], [("s9", ⟨"f.pdf", "now", true⟩)]⟩ : SysState ApiMeta) "s9"
    rfl rfl (by simp)

/-- Claim C10, counterexample: a field that is present but null in
the model's parsed JSON object is copied through as null, not
replaced by a string — the returned structure does not always hold
all its fields as strings. -/
theorem null_field_passes_through :
    apiParseResponse (some (.obj [("answer", JsonValue.null)])) "raw" "s10" =
      .ok { answer := .null, reason := .str "", clause := .str "",
            session_id := "s10" }
    ∧ JsonValue.null.isStr = false :=
  ⟨rfl, rfl⟩

/-- Claim C10, amended: on the primary path the api.py and
simple_api.py parse steps copy each of answer, reason and clause out
of the parsed object with dict.get and the empty-string default: a
field absent from the object becomes the empty string (so a parsed
response can carry an empty answer, and all keys are always present),
while a present field is passed through verbatim whatever its JSON
type. -/
theorem absent_fields_become_empty (o : List (String × JsonValue))
    (rt sid : String) :
    apiParseResponse (some (.obj o)) rt sid =
      .ok { answer := getD o "answer" (.str ""),
            reason := getD o "reason" (.str ""),
            clause := getD o "clause" (.str ""), session_id := sid }
    ∧ getAnswer (.ok ()) (.ok rt) (some (.obj o)) sid =
      { answer := getD o "answer" (.str ""),
        reason := getD o "reason" (.str ""),
        clause := getD o "clause" (.str ""), session_id := sid }
    ∧ (∀ k, getField o k = none → getD o k (.str "") = .str "")
    ∧ (∀ k v, getField o k = some v → getD o k (.str "") = v) := by
  refine ⟨rfl, rfl, fun k h => ?_, fun k v h => ?_⟩
  · simp [getD, h]
  · simp [getD, h]

/-- Claim C10, witness: the amended theorem applied to the empty
object (absent field becomes the empty string) and to an object with
a present answer (passed through verbatim). -/
theorem absent_fields_become_empty_witness :
    getD [] "answer" (JsonValue.str "") = .str ""
    ∧ getD [("answer", JsonValue.str "Yes")] "answer" (.str "") = .str "Yes" :=
  ⟨(absent_fields_become_empty [] "w" "s").2.2.1 "answer" rfl,
   (absent_fields_become_empty [("answer", JsonValue.str "Yes")] "w" "s").2.2.2
     "answer" (.str "Yes") rfl⟩

end PolicyQA
